import Mathlib

/-!
Shallow embedding of the `pholkhol` backend (`backend/app/auth.py`,
`backend/app/main.py`, `backend/app/kestra_client.py`).

The relational store is modelled as explicit lists of rows; each request
handler becomes a function from the database state (plus its request
arguments) to an `Except` value: `Except.error` models an HTTP error
response with the transaction rolled back, `Except.ok` carries the
committed database state and the JSON response.  Server-generated values
(UUIDs, `now()` timestamps) are passed in as parameters.
-/

namespace Pholkhol

/-- Loosely typed JSON / Python values, as they appear in the ad-hoc
`dict` vote payload (`payload: dict = Body(...)` in `vote_post`). -/
inductive JsonVal where
  | int (n : Int)
  | float (x : Rat)
  | str (s : String)
  | bool (b : Bool)
  | null
deriving Repr, DecidableEq

/-- Truncation toward zero, the behaviour of Python `int()` on a float
(the denominator of a `Rat` is positive, so truncating division of the
numerator by the denominator truncates the fraction toward zero). -/
def truncToward0 (x : Rat) : Int := x.num.tdiv x.den

/-- The value of a decimal digit character. -/
def digitVal (c : Char) : Option Nat :=
  if '0' ≤ c ∧ c ≤ '9' then some (c.toNat - '0'.toNat) else none

/-- Accumulate decimal digits; `none` as the accumulator means no digit
has been seen yet, so an empty digit string fails. -/
def parseDigits : List Char → Option Nat → Option Nat
  | [], acc => acc
  | c :: t, acc =>
    match digitVal c, acc with
    | some d, some n => parseDigits t (some (n * 10 + d))
    | some d, none => parseDigits t (some d)
    | none, _ => none

/-- Python `int(...)` on a string: an optional sign followed by decimal
digits; anything else (`"abc"`, `"1.5"`, `""`) raises `ValueError`. -/
def pyIntOfString (s : String) : Option Int :=
  match s.data with
  | '-' :: rest => (parseDigits rest none).map (fun n => -(n : Int))
  | '+' :: rest => (parseDigits rest none).map (fun n => (n : Int))
  | l => (parseDigits l none).map (fun n => (n : Int))

/-- Python's `int(...)` builtin applied to a JSON value: floats are
truncated toward zero, strings must parse as an integer literal
(`int("1.5")` raises `ValueError`), booleans coerce to 0/1, `None`
raises `TypeError`.  The error carries the Python exception name. -/
def pyInt : JsonVal → Except String Int
  | .int n => .ok n
  | .float x => .ok (truncToward0 x)
  | .str s =>
    match pyIntOfString s with
    | some n => .ok n
    | none => .error "ValueError"
  | .bool b => .ok (if b then 1 else 0)
  | .null => .error "TypeError"

/-- Python `str.strip()`: remove leading and trailing whitespace. -/
def pyStrip (s : String) : String :=
  String.mk (((s.data.dropWhile Char.isWhitespace).reverse.dropWhile Char.isWhitespace).reverse)

/-- The segment of a string before the first occurrence of `c`:
`s.split(c)[0]` in Python. -/
def takeUntil (c : Char) : List Char → List Char
  | [] => []
  | a :: t => if a = c then [] else a :: takeUntil c t

/-- The suffix after the last occurrence of `c`, or `none` when `c`
does not occur: `s.split(c)[-1]` guarded by `c in s` in Python. -/
def lastSplitSuffix (c : Char) : List Char → Option (List Char)
  | [] => none
  | a :: t =>
    match lastSplitSuffix c t with
    | some suf => some suf
    | none => if a = c then some t else none

/-- An HTTP-level failure: either an `HTTPException` raised by handler
code (status code, detail, and whether a `WWW-Authenticate: Bearer`
challenge header is attached), or an uncaught Python exception, which
the framework turns into a bare 500 response. -/
inductive Err where
  | http (status_code : Nat) (detail : String) (bearerChallenge : Bool)
  | uncaught (exc : String)
deriving Repr, DecidableEq

/-- `str(e)` for an exception `e`: starlette's `HTTPException.__str__`
renders as `"{status_code}: {detail}"`. -/
def pyStr : Err → String
  | .http s d _ => toString s ++ ": " ++ d
  | .uncaught n => n

/-- A row of the `users` table (columns referenced by this system). -/
structure UserRow where
  id : String
  username : String
  email : String
  hashed_password : String
  first_name : Option String := none
  last_name : Option String := none
  age : Option Int := none
  location : Option String := none
  gender : Option String := none
  occupation : Option String := none
  reputation_score : Option Rat := none
deriving Repr, DecidableEq

/-- A row of the `posts` table. -/
structure PostRow where
  id : String
  user_id : String
  description : String
  category : Option String
  image_url : String
  lat : Rat
  lng : Rat
  status : String
  created_at : Nat
deriving Repr, DecidableEq

/-- A row of the `votes` table. -/
structure VoteRow where
  post_id : String
  user_id : String
  vote : Int
  created_at : Nat
deriving Repr, DecidableEq

/-- A row of the `comments` table. -/
structure CommentRow where
  id : String
  post_id : String
  user_id : String
  content : String
  created_at : Nat
deriving Repr, DecidableEq

/-- The persistent store. -/
structure DB where
  users : List UserRow
  posts : List PostRow
  votes : List VoteRow
  comments : List CommentRow
deriving Repr, DecidableEq

/-- `WHERE post_id = :p AND user_id = :u` on the `votes` table. -/
def pairMatch (post_id user_id : String) (r : VoteRow) : Bool :=
  r.post_id == post_id && r.user_id == user_id

/-- All vote rows for a given (post, user) pair. -/
def votesFor (db : DB) (post_id user_id : String) : List VoteRow :=
  db.votes.filter (pairMatch post_id user_id)

/-- Response body of the vote endpoint:
`{"upvotes": n, "downvotes": m, "user_vote": 1|-1|0}`. -/
structure VoteResult where
  upvotes : Nat
  downvotes : Nat
  user_vote : Int
deriving Repr, DecidableEq

/-- The delete / update-else-insert block of `vote_post` (`main.py`
lines 280-293): value 0 executes `DELETE FROM votes WHERE post_id = :p
AND user_id = :u`; otherwise an `UPDATE` touches every matching row
(setting `vote` and `created_at = now()`), and when its rowcount is 0
an `INSERT` appends a fresh row.  The `INSERT INTO votes` omits
`created_at`, which the column default fills with the server time,
modelled by `now`. -/
def votesAfter (votes : List VoteRow) (post_id user_id : String) (v : Int) (now : Nat) :
    List VoteRow :=
  if v = 0 then
    votes.filter (fun r => !pairMatch post_id user_id r)
  else
    let updated := votes.map (fun r =>
      if pairMatch post_id user_id r then { r with vote := v, created_at := now } else r)
    let rowcount := (votes.filter (pairMatch post_id user_id)).length
    if rowcount = 0 then
      updated ++ [{ post_id := post_id, user_id := user_id, vote := v, created_at := now }]
    else updated

/-- The aggregate counts query of `vote_post` (`main.py` lines 296-307):
upvote and downvote counts over the post's rows, and the caller's own
vote via a scalar subquery; `int(row.user_vote or 0)` yields 0 when no
row exists and the stored vote value otherwise. -/
def voteCounts (votes : List VoteRow) (post_id user_id : String) : VoteResult :=
  let post_votes := votes.filter (fun r => r.post_id == post_id)
  let upvotes := (post_votes.filter (fun r => r.vote == 1)).length
  let downvotes := (post_votes.filter (fun r => r.vote == -1)).length
  let user_vote :=
    match votes.find? (pairMatch post_id user_id) with
    | some r => r.vote
    | none => 0
  ⟨upvotes, downvotes, user_vote⟩

/-- The body of `vote_post`'s `try:` block (`main.py` lines 273-308):
existence check on the post, then the delete / update-else-insert block,
then the aggregate counts query, all in one transaction. -/
def vote_post_txn (db : DB) (post_id user_id : String) (v : Int) (now : Nat) :
    Except Err (DB × VoteResult) :=
  if (db.posts.find? (fun p => p.id == post_id)).isNone then
    .error (.http 404 "Post not found" false)
  else
    let votes' := votesAfter db.votes post_id user_id v now
    .ok ({ db with votes := votes' }, voteCounts votes' post_id user_id)

/-- `vote_post` (`main.py` lines 258-313).  `v = int(payload.get("vote", 0))`
runs before the `try:` block, so a conversion failure propagates to the
framework as an uncaught exception.  The membership check `v not in (1, -1, 0)`
raises 400 before any database access.  The `except Exception` clause
catches every exception raised inside the `try:` block — including the
`HTTPException(404)` for a missing post, since `HTTPException` subclasses
`Exception` — and re-raises it as `HTTPException(500, f"DB error: {e}")`. -/
def vote_post (db : DB) (post_id : String) (payload : List (String × JsonVal))
    (user_id : String) (now : Nat) : Except Err (DB × VoteResult) :=
  match pyInt ((payload.lookup "vote").getD (.int 0)) with
  | .error exc => .error (.uncaught exc)
  | .ok v =>
    if ¬(v = 1 ∨ v = -1 ∨ v = 0) then
      .error (.http 400 "Invalid vote value" false)
    else
      match vote_post_txn db post_id user_id v now with
      | .ok r => .ok r
      | .error e => .error (.http 500 ("DB error: " ++ pyStr e) false)

/-- The created-comment response: the inserted comment re-read joined
with the commenting user's profile columns. -/
structure CommentView where
  id : String
  content : String
  created_at : Nat
  user_id : String
  username : String
  first_name : Option String
  last_name : Option String
deriving Repr, DecidableEq

/-- The body of `create_comment`'s `try:` block (`main.py` lines 362-390):
existence check on the post, insert, then re-read joined with `users`.
`engine.begin()` rolls the transaction back when an exception escapes,
so a failure after the insert discards it (here: the join finding no
user row makes `r` `None` and the attribute access raise). -/
def create_comment_txn (db : DB) (post_id user_id content comment_id : String) (now : Nat) :
    Except Err (DB × CommentView) :=
  if (db.posts.find? (fun p => p.id == post_id)).isNone then
    .error (.http 404 "Post not found" false)
  else
    let comments' := db.comments ++ [⟨comment_id, post_id, user_id, content, now⟩]
    match db.users.find? (fun u => u.id == user_id) with
    | none => .error (.uncaught "AttributeError")
    | some u =>
      .ok ({ db with comments := comments' },
        ⟨comment_id, content, now, u.id, u.username, u.first_name, u.last_name⟩)

/-- `create_comment` (`main.py` lines 351-394).  The emptiness check
(`not payload.content or not payload.content.strip()`) runs before the
`try:` block; inside it, the same blanket `except Exception` as in
`vote_post` rewraps the 404 `HTTPException` into a 500. -/
def create_comment (db : DB) (post_id content user_id comment_id : String) (now : Nat) :
    Except Err (DB × CommentView) :=
  if content = "" ∨ pyStrip content = "" then
    .error (.http 400 "Comment cannot be empty" false)
  else
    match create_comment_txn db post_id user_id content comment_id now with
    | .ok r => .ok r
    | .error e => .error (.http 500 ("DB error: " ++ pyStr e) false)

/-! ### Credential and session component (`auth.py`) -/

/-- `ACCESS_TOKEN_EXPIRE_MINUTES = int(os.getenv("ACCESS_TOKEN_EXPIRE_MINUTES", 60 * 24))`
(`auth.py` line 17); the environment variable, already converted by
`int(...)`, is modelled as an optional integer. -/
def ACCESS_TOKEN_EXPIRE_MINUTES (env : Option Int) : Int := env.getD (60 * 24)

/-- The claims of an encoded JWT.  `jwt.encode` is injective on its
claims, so the token string is identified with the claims it carries:
the caller-supplied `data` dictionary (string-valued entries) plus the
`exp` and `iat` timestamps (POSIX seconds). -/
structure EncodedClaims where
  data : List (String × String)
  exp : Int
  iat : Int
deriving Repr, DecidableEq

/-- `create_access_token` (`auth.py` lines 82-91): `expire` is
`now + expires_delta` when a delta is given and
`now + timedelta(minutes=ACCESS_TOKEN_EXPIRE_MINUTES)` otherwise;
timestamps are in seconds, so the minute lifetime scales by 60. -/
def create_access_token (expireMinutes : Int) (data : List (String × String))
    (now : Int) (expires_delta : Option Int) : EncodedClaims :=
  let expire :=
    match expires_delta with
    | some d => now + d
    | none => now + expireMinutes * 60
  ⟨data, expire, now⟩

/-- The token issued at login: `create_access_token(data={"sub": str(user_row.id)})`
(`auth.py` line 175), with no explicit `expires_delta`. -/
def login_token_claims (expireMinutes : Int) (user_id : String) (now : Int) : EncodedClaims :=
  create_access_token expireMinutes [("sub", user_id)] now none

/-- `get_user_by_username` (`auth.py` lines 63-69). -/
def get_user_by_username (db : DB) (username : String) : Option UserRow :=
  db.users.find? (fun u => u.username == username)

/-- `get_user_by_id` (`auth.py` lines 71-77). -/
def get_user_by_id (db : DB) (user_id : String) : Option UserRow :=
  db.users.find? (fun u => u.id == user_id)

/-- Login response: `{"access_token": ..., "token_type": "bearer"}`. -/
structure LoginResponse where
  access_token : EncodedClaims
  token_type : String
deriving Repr, DecidableEq

/-- `login` (`auth.py` lines 150-176).  The password-hash primitives
(`verify_password`, `pwd_context.needs_update`, `get_password_hash`) are
third-party library boundaries and are passed in as functions.  The
best-effort re-hash update only rewrites `users.hashed_password`; any
failure in it is swallowed (modelled by the update being total). -/
def login (db : DB) (verify : String → String → Bool) (needsUpdate : String → Bool)
    (rehash : String → String) (expireMinutes : Int) (now : Int)
    (username password : String) : Except Err (DB × LoginResponse) :=
  match get_user_by_username db username with
  | none => .error (.http 400 "Incorrect username or password" false)
  | some user_row =>
    let stored_hash := user_row.hashed_password
    if ¬ verify password stored_hash then
      .error (.http 400 "Incorrect username or password" false)
    else
      let db' :=
        if needsUpdate stored_hash then
          { db with users := db.users.map (fun u =>
              if u.id == user_row.id then { u with hashed_password := rehash password } else u) }
        else db
      .ok (db', ⟨login_token_claims expireMinutes user_row.id now, "bearer"⟩)

/-- A presented bearer token, as seen by the JWT library: whether it is
well formed, whether its signature verifies against the secret, its
`exp` claim, and its `sub` claim (the JWT library rejects a non-string
`sub` with a `JWTError`, so `sub` is an optional string here). -/
structure JwtToken where
  wellFormed : Bool
  validSignature : Bool
  exp : Option Int
  sub : Option String
deriving Repr, DecidableEq

/-- Whether the token's `exp` claim lies in the past at time `now`
(the JWT library raises `ExpiredSignatureError` when `exp < now`). -/
def tokenExpired (t : JwtToken) (now : Int) : Bool :=
  match t.exp with
  | some e => e < now
  | none => false

/-- `jwt.decode(token, SECRET_KEY, algorithms=[ALGORITHM])`: raises a
`JWTError` on a malformed token, a bad signature, or an expired `exp`
claim; otherwise returns the claims, of which the handler reads `sub`. -/
def jwtDecode (t : JwtToken) (now : Int) : Except Unit (Option String) :=
  if t.wellFormed = false then .error ()
  else if t.validSignature = false then .error ()
  else if tokenExpired t now then .error ()
  else .ok t.sub

/-- The identity dictionary returned by `get_current_user`. -/
structure CurrentUser where
  id : String
  username : String
  email : String
  reputation_score : Rat
deriving Repr, DecidableEq

/-- The uniform 401 of `get_current_user`: status 401, detail
`"Could not validate credentials"`, header `WWW-Authenticate: Bearer`. -/
def credentials_exception : Err := .http 401 "Could not validate credentials" true

/-- `get_current_user` (`auth.py` lines 181-205): decode the token
(raising `credentials_exception` on any `JWTError`), reject a missing
`sub`, resolve the subject to a user row (rejecting when none exists),
and return id/username/email with `reputation_score` defaulted to 0.5
when the stored column is NULL. -/
def get_current_user (db : DB) (token : JwtToken) (now : Int) : Except Err CurrentUser :=
  match jwtDecode token now with
  | .error _ => .error credentials_exception
  | .ok none => .error credentials_exception
  | .ok (some user_id) =>
    match get_user_by_id db user_id with
    | none => .error credentials_exception
    | some row =>
      .ok ⟨row.id, row.username, row.email, row.reputation_score.getD (mkRat 1 2)⟩

/-- `register`'s request body (`UserCreate`); pydantic's length/email
validation happens before the handler runs and touches no state. -/
structure RegisterInput where
  username : String
  email : String
  password : String
  first_name : Option String := none
  last_name : Option String := none
  age : Option Int := none
  location : Option String := none
  gender : Option String := none
  occupation : Option String := none

/-- `register` (`auth.py` lines 96-148): duplicate check on username OR
email, then a single insert; the new row's id is server-generated
(`new_id`) and `reputation_score` is left unset. -/
def register (db : DB) (hash : String → String) (input : RegisterInput) (new_id : String) :
    Except Err (DB × (String × String × String)) :=
  if (db.users.find? (fun u => u.username == input.username || u.email == input.email)).isSome then
    .error (.http 400 "Username or email already registered" false)
  else
    let row : UserRow :=
      { id := new_id, username := input.username, email := input.email,
        hashed_password := hash input.password,
        first_name := input.first_name, last_name := input.last_name,
        age := input.age, location := input.location, gender := input.gender,
        occupation := input.occupation, reputation_score := none }
    .ok ({ db with users := db.users ++ [row] }, (new_id, input.username, input.email))

/-! ### Workflow trigger component (`kestra_client.py`) -/

/-- A scheduled invocation of `trigger_kestra`, recorded as the values
bound to its two parameters `(post_id: str, timeout: int = 10)`.  The
`timeout` slot holds whatever Python value the call site supplies. -/
structure KestraCall where
  post_id : String
  timeout : JsonVal
deriving Repr, DecidableEq

/-- The declared default of `trigger_kestra`'s `timeout` parameter
(`kestra_client.py` line 14): the integer 10 (seconds). -/
def trigger_kestra_default_timeout : JsonVal := .int 10

/-- `background_tasks.add_task(trigger_kestra, post_id, object_url)`
(`main.py` line 110): `trigger_kestra` has parameters
`(post_id: str, timeout: int = 10)` and no image-URL parameter, so the
second positional argument `object_url` binds to `timeout`. -/
def scheduled_trigger_call (post_id object_url : String) : KestraCall :=
  { post_id := post_id, timeout := .str object_url }

/-! ### Post creation and listing (`main.py`) -/

/-- Module-level storage constants (`main.py` lines 31-39). -/
def s3_endpoint_url : String := "http://localhost:9000"

/-- The fixed bucket name (`main.py` line 39). -/
def BUCKET : String := "citysense"

/-- `{"post_id": ..., "image_url": ..., "status": "PENDING"}`. -/
structure PostResponse where
  post_id : String
  image_url : String
  status : String
deriving Repr, DecidableEq

/-- `create_post_file` (`main.py` lines 66-113): reject a non-image
content type (primary type of `content_type.split("/")[0]`), derive the
object key from the new post id and the filename extension (default
`jpg`), upload to storage (modelled as succeeding; a failure is a 500
before any database write), insert the post row with status `'PENDING'`
and `category` NULL, and schedule the background workflow trigger. -/
def create_post_file (db : DB) (description : String) (lat lng : Rat)
    (content_type filename : String) (user_id post_id : String) (now : Nat) :
    Except Err (DB × PostResponse × List KestraCall) :=
  if String.mk (takeUntil '/' content_type.data) ≠ "image" then
    .error (.http 400 "Uploaded file must be an image" false)
  else
    let ext :=
      match lastSplitSuffix '.' filename.data with
      | some suf => String.mk suf
      | none => "jpg"
    let object_key := post_id ++ "." ++ ext
    let object_url := s3_endpoint_url ++ "/" ++ BUCKET ++ "/" ++ object_key
    let row : PostRow :=
      ⟨post_id, user_id, description, none, object_url, lat, lng, "PENDING", now⟩
    .ok ({ db with posts := db.posts ++ [row] },
      ⟨post_id, object_url, "PENDING"⟩,
      [scheduled_trigger_call post_id object_url])

/-- `PostCreate` request body for `/api/post`. -/
structure PostCreate where
  description : String
  lat : Rat
  lng : Rat
  image_url : String
deriving Repr, DecidableEq

/-- `create_post` (`main.py` lines 142-171): the image-URL sanity check
only prints a warning and always proceeds; the handler inserts the post
row with status `'PENDING'` and `category` NULL and does not schedule
any workflow trigger. -/
def create_post (db : DB) (payload : PostCreate) (user_id post_id : String) (now : Nat) :
    Except Err (DB × PostResponse) :=
  let row : PostRow :=
    ⟨post_id, user_id, payload.description, none, payload.image_url,
      payload.lat, payload.lng, "PENDING", now⟩
  .ok ({ db with posts := db.posts ++ [row] }, ⟨post_id, payload.image_url, "PENDING"⟩)

/-- `list_posts` parameter validation (`main.py` lines 174-179):
`page: int = Query(1, ge=1)` and `limit: int = Query(10, ge=1, le=50)`
are enforced by the framework before the handler runs; a violation is a
422 validation error, modelled as `Except.error ()`.  On success the
handler computes `offset = (page - 1) * limit`. -/
def list_posts_params (page limit : Int) : Except Unit Int :=
  if page < 1 then .error ()
  else if limit < 1 then .error ()
  else if limit > 50 then .error ()
  else .ok ((page - 1) * limit)

/-- The bound parameters `list_comments` passes to its SQL query. -/
structure CommentsQuery where
  post_id : String
  limit : Int
  offset : Int
deriving Repr, DecidableEq

/-- `list_comments` (`main.py` lines 315-317): `page: int = 1` and
`limit: int = 50` carry no bounds constraints; the handler computes
`offset = (page - 1) * limit` and binds it directly into the SQL
`LIMIT :limit OFFSET :offset`. -/
def list_comments_query (post_id : String) (page limit : Int) : CommentsQuery :=
  ⟨post_id, limit, (page - 1) * limit⟩

/-! ### The whole request surface, as one step function -/

/-- The committed database state of a handler outcome: an error response
rolls the transaction back, leaving the store unchanged. -/
def dbAfter {α : Type} (r : Except Err (DB × α)) (db : DB) : DB :=
  match r with
  | .ok (db', _) => db'
  | .error _ => db

/-- One request to any endpoint of the system, carrying its arguments.
The endpoints with no database write (`create_upload_url`, which only
talks to the object store; the read-only `list_posts`, `list_comments`,
and the `get_current_user` dependency) are listed so that the step
function covers the system's entire surface. -/
inductive ApiOp where
  | registerUser (input : RegisterInput) (hash : String → String) (new_id : String)
  | loginUser (verify : String → String → Bool) (needsUpdate : String → Bool)
      (rehash : String → String) (expireMinutes : Int) (now : Int) (username password : String)
  | postFile (description : String) (lat lng : Rat) (content_type filename : String)
      (user_id post_id : String) (now : Nat)
  | uploadUrl (filename content_type : String)
  | registerPost (payload : PostCreate) (user_id post_id : String) (now : Nat)
  | listPostsOp (page limit : Int) (user_id : String)
  | votePostOp (post_id : String) (payload : List (String × JsonVal)) (user_id : String) (now : Nat)
  | listCommentsOp (post_id : String) (page limit : Int)
  | createCommentOp (post_id content user_id comment_id : String) (now : Nat)

/-- The database state after serving one request. -/
def applyOp (db : DB) : ApiOp → DB
  | .registerUser input hash new_id => dbAfter (register db hash input new_id) db
  | .loginUser verify nu rh m now u p => dbAfter (login db verify nu rh m now u p) db
  | .postFile d la ln ct fn uid pid now =>
      dbAfter (create_post_file db d la ln ct fn uid pid now) db
  | .uploadUrl _ _ => db
  | .registerPost payload uid pid now => dbAfter (create_post db payload uid pid now) db
  | .listPostsOp _ _ _ => db
  | .votePostOp pid payload uid now => dbAfter (vote_post db pid payload uid now) db
  | .listCommentsOp _ _ _ => db
  | .createCommentOp pid content uid cid now =>
      dbAfter (create_comment db pid content uid cid now) db

/-! ### Concrete stores for witnesses and counterexamples -/

/-- A store with one registered user and no posts. -/
def dbNoPosts : DB :=
  { users := [{ id := "u1", username := "alice", email := "a@example.com", hashed_password := "h" }],
    posts := [], votes := [], comments := [] }

/-- A store with one registered user and one post, and no votes. -/
def dbOnePost : DB :=
  { users := [{ id := "u1", username := "alice", email := "a@example.com", hashed_password := "h" }],
    posts := [⟨"p1", "u1", "pothole", none, "http://localhost:9000/citysense/p1.jpg",
      0, 0, "PENDING", 1⟩],
    votes := [], comments := [] }

/-! ### List helper lemmas -/

theorem filter_filter_not {α : Type} (p : α → Bool) (l : List α) :
    (l.filter (fun a => !p a)).filter p = [] := by
  induction l with
  | nil => rfl
  | cons a t ih =>
    by_cases h : p a <;> simp [List.filter_cons, h, ih]

theorem find?_eq_none_of_filter_eq_nil {α : Type} {p : α → Bool} {l : List α}
    (h : l.filter p = []) : l.find? p = none := by
  rw [List.find?_eq_none]
  intro x hx
  have := List.filter_eq_nil_iff.mp h x hx
  simpa using this

theorem find?_of_filter_singleton {α : Type} {p : α → Bool} {l : List α} {x : α}
    (h : l.filter p = [x]) : l.find? p = some x := by
  induction l with
  | nil => simp at h
  | cons a t ih =>
    by_cases hp : p a
    · rw [List.filter_cons_of_pos hp] at h
      rw [List.find?_cons_of_pos _ hp]
      simp at h
      exact congrArg some h.1
    · rw [List.filter_cons_of_neg hp] at h
      rw [List.find?_cons_of_neg _ hp]
      exact ih h

theorem map_eq_self_of_forall {α : Type} {f : α → α} {l : List α}
    (h : ∀ a ∈ l, f a = a) : l.map f = l := by
  induction l with
  | nil => rfl
  | cons a t ih =>
    simp only [List.map_cons, h a (by simp)]
    rw [ih (fun a ha => h a (by simp [ha]))]

theorem filter_map_comm {α : Type} {p : α → Bool} {f : α → α} {l : List α}
    (h : ∀ a, p (f a) = p a) : (l.map f).filter p = (l.filter p).map f := by
  induction l with
  | nil => rfl
  | cons a t ih =>
    by_cases hp : p a
    · rw [List.map_cons, List.filter_cons_of_pos (by rw [h a]; exact hp),
        List.filter_cons_of_pos hp, List.map_cons, ih]
    · rw [List.map_cons, List.filter_cons_of_neg (by rw [h a]; exact hp),
        List.filter_cons_of_neg hp, ih]

theorem length_filter_filter_le {α : Type} (p q : α → Bool) (l : List α) :
    ((l.filter q).filter p).length ≤ (l.filter p).length :=
  (List.Sublist.filter p (List.filter_sublist l)).length_le

/-! ### Lemmas about the vote upsert and the posts table -/

theorem pairMatch_elim {post_id user_id : String} {r : VoteRow}
    (h : pairMatch post_id user_id r = true) : r.post_id = post_id ∧ r.user_id = user_id := by
  simpa [pairMatch] using h

theorem pairMatch_new (post_id user_id p u : String) (v : Int) (now : Nat) :
    pairMatch p u ⟨post_id, user_id, v, now⟩ = true ↔ (p = post_id ∧ u = user_id) := by
  simp only [pairMatch, Bool.and_eq_true, beq_iff_eq]
  constructor
  · rintro ⟨h1, h2⟩
    exact ⟨h1.symm, h2.symm⟩
  · rintro ⟨h1, h2⟩
    exact ⟨h1.symm, h2.symm⟩

theorem filter_not_other {α : Type} {m m' : α → Bool} (h : ∀ a, m a = true → m' a = false)
    (l : List α) : (l.filter (fun a => !m a)).filter m' = l.filter m' := by
  induction l with
  | nil => rfl
  | cons a t ih =>
    by_cases hm : m a
    · rw [List.filter_cons_of_neg (by simp [hm]), ih, List.filter_cons_of_neg (by simp [h a hm])]
    · rw [List.filter_cons_of_pos (by simp [hm])]
      by_cases hm' : m' a
      · rw [List.filter_cons_of_pos hm', List.filter_cons_of_pos hm', ih]
      · rw [List.filter_cons_of_neg hm', List.filter_cons_of_neg hm', ih]

theorem upsert_preserves_pairMatch (post_id user_id p u : String) (v : Int) (now : Nat) :
    ∀ a : VoteRow, pairMatch p u
      (if pairMatch post_id user_id a then { a with vote := v, created_at := now } else a) =
      pairMatch p u a := by
  intro a
  by_cases hma : pairMatch post_id user_id a
  · rw [if_pos hma]
    simp [pairMatch]
  · rw [if_neg hma]

theorem votesAfter_filter_pair (l : List VoteRow) (pid uid : String) (v : Int) (now : Nat)
    (hlen : (l.filter (pairMatch pid uid)).length ≤ 1) :
    (votesAfter l pid uid v now).filter (pairMatch pid uid) =
      if v = 0 then [] else [⟨pid, uid, v, now⟩] := by
  by_cases hv : v = 0
  · simp only [votesAfter, if_pos hv, hv, if_pos]
    exact filter_filter_not _ _
  · simp only [votesAfter, if_neg hv]
    by_cases hc : (l.filter (pairMatch pid uid)).length = 0
    · have hnil : l.filter (pairMatch pid uid) = [] := List.length_eq_zero.mp hc
      have hmap : l.map (fun r =>
          if pairMatch pid uid r then { r with vote := v, created_at := now } else r) = l :=
        map_eq_self_of_forall (fun a ha => by
          have hfa : ¬ pairMatch pid uid a = true := List.filter_eq_nil_iff.mp hnil a ha
          simp [Bool.eq_false_iff.mpr hfa])
      rw [if_pos hc, hmap, List.filter_append, hnil]
      have hnew : pairMatch pid uid (⟨pid, uid, v, now⟩ : VoteRow) = true := by
        simp [pairMatch]
      simp [hnew, hv]
    · rw [if_neg hc]
      have h1 : (l.filter (pairMatch pid uid)).length = 1 := by omega
      obtain ⟨r0, hr0⟩ := List.length_eq_one.mp h1
      rw [filter_map_comm (upsert_preserves_pairMatch pid uid pid uid v now), hr0]
      have hm0 : pairMatch pid uid r0 = true := List.of_mem_filter (l := l) (by rw [hr0]; simp)
      obtain ⟨hp0, hu0⟩ := pairMatch_elim hm0
      cases r0
      simp only [List.map_cons, List.map_nil, hm0, if_true]
      simp_all

theorem votesAfter_filter_other (l : List VoteRow) (pid uid p u : String) (v : Int) (now : Nat)
    (hne : ¬(p = pid ∧ u = uid)) :
    (votesAfter l pid uid v now).filter (pairMatch p u) = l.filter (pairMatch p u) := by
  have hdisj : ∀ a : VoteRow, pairMatch pid uid a = true → pairMatch p u a = false := by
    intro a ha
    obtain ⟨h1, h2⟩ := pairMatch_elim ha
    cases hpm : pairMatch p u a with
    | false => rfl
    | true =>
      obtain ⟨h1x, h2x⟩ := pairMatch_elim hpm
      exact absurd ⟨h1x.symm.trans h1, h2x.symm.trans h2⟩ hne
  have hdisj2 : ∀ a : VoteRow, pairMatch p u a = true → pairMatch pid uid a = false := by
    intro a ha
    obtain ⟨h1x, h2x⟩ := pairMatch_elim ha
    cases hpm : pairMatch pid uid a with
    | false => rfl
    | true =>
      obtain ⟨h1, h2⟩ := pairMatch_elim hpm
      exact absurd ⟨h1x.symm.trans h1, h2x.symm.trans h2⟩ hne
  have hmapid : ∀ a ∈ l.filter (pairMatch p u),
      (if pairMatch pid uid a then { a with vote := v, created_at := now } else a) = a := by
    intro a ha
    have hfa : pairMatch pid uid a = false := hdisj2 a (List.of_mem_filter ha)
    simp [hfa]
  by_cases hv : v = 0
  · simp only [votesAfter, if_pos hv]
    exact filter_not_other hdisj l
  · simp only [votesAfter, if_neg hv]
    by_cases hc : (l.filter (pairMatch pid uid)).length = 0
    · rw [if_pos hc, List.filter_append,
        filter_map_comm (upsert_preserves_pairMatch pid uid p u v now),
        map_eq_self_of_forall hmapid]
      have hnew : pairMatch p u ⟨pid, uid, v, now⟩ = false := by
        cases hpm : pairMatch p u (⟨pid, uid, v, now⟩ : VoteRow) with
        | false => rfl
        | true => exact absurd ((pairMatch_new pid uid p u v now).mp hpm) hne
      simp [hnew]
    · rw [if_neg hc, filter_map_comm (upsert_preserves_pairMatch pid uid p u v now),
        map_eq_self_of_forall hmapid]

theorem votesAfter_inv (l : List VoteRow) (pid uid : String) (v : Int) (now : Nat)
    (hinv : ∀ p u, (l.filter (pairMatch p u)).length ≤ 1) (p u : String) :
    ((votesAfter l pid uid v now).filter (pairMatch p u)).length ≤ 1 := by
  by_cases hpu : p = pid ∧ u = uid
  · obtain ⟨hp, hu⟩ := hpu
    subst hp
    subst hu
    rw [votesAfter_filter_pair l p u v now (hinv p u)]
    by_cases hv : v = 0 <;> simp [hv]
  · rw [votesAfter_filter_other l pid uid p u v now hpu]
    exact hinv p u

theorem vote_post_txn_eq (db : DB) (post_id user_id : String) (v : Int) (now : Nat)
    (hnn : (db.posts.find? (fun p => p.id == post_id)).isNone = false) :
    vote_post_txn db post_id user_id v now =
      .ok ({ db with votes := votesAfter db.votes post_id user_id v now },
        voteCounts (votesAfter db.votes post_id user_id v now) post_id user_id) := by
  unfold vote_post_txn
  rw [if_neg (by simp [hnn])]

theorem vote_post_eq (db : DB) (post_id user_id : String) (v : Int) (now : Nat)
    (hv : v = 1 ∨ v = -1 ∨ v = 0)
    (hnn : (db.posts.find? (fun p => p.id == post_id)).isNone = false) :
    vote_post db post_id [("vote", JsonVal.int v)] user_id now =
      .ok ({ db with votes := votesAfter db.votes post_id user_id v now },
        voteCounts (votesAfter db.votes post_id user_id v now) post_id user_id) := by
  have h1 : vote_post db post_id [("vote", JsonVal.int v)] user_id now =
      (if ¬(v = 1 ∨ v = -1 ∨ v = 0) then .error (.http 400 "Invalid vote value" false)
       else match vote_post_txn db post_id user_id v now with
         | .ok r => .ok r
         | .error e => .error (.http 500 ("DB error: " ++ pyStr e) false)) := rfl
  rw [h1, if_neg (not_not_intro hv), vote_post_txn_eq db post_id user_id v now hnn]

theorem register_preserves_posts (db : DB) (hash : String → String) (input : RegisterInput)
    (new_id : String) : (dbAfter (register db hash input new_id) db).posts = db.posts := by
  by_cases hc : (db.users.find? (fun u =>
      u.username == input.username || u.email == input.email)).isSome = true
  · simp [register, dbAfter, hc]
  · simp [register, dbAfter, hc]

theorem login_preserves_posts (db : DB) (verify : String → String → Bool)
    (needsUpdate : String → Bool) (rehash : String → String) (expireMinutes now : Int)
    (username password : String) :
    (dbAfter (login db verify needsUpdate rehash expireMinutes now username password) db).posts =
      db.posts := by
  cases hm : get_user_by_username db username with
  | none => simp [login, dbAfter, hm]
  | some row =>
    by_cases hvf : verify password row.hashed_password
    · by_cases hnu : needsUpdate row.hashed_password
      · simp [login, dbAfter, hm, hvf, hnu]
      · simp [login, dbAfter, hm, hvf, hnu]
    · simp [login, dbAfter, hm, hvf]

theorem vote_post_preserves_posts (db : DB) (post_id : String)
    (payload : List (String × JsonVal)) (user_id : String) (now : Nat) :
    (dbAfter (vote_post db post_id payload user_id now) db).posts = db.posts := by
  cases hpi : pyInt ((payload.lookup "vote").getD (.int 0)) with
  | error exc => simp [vote_post, dbAfter, hpi]
  | ok v =>
    by_cases hval : v = 1 ∨ v = -1 ∨ v = 0
    · by_cases hnn : (db.posts.find? (fun p => p.id == post_id)).isNone = true
      · simp [vote_post, vote_post_txn, dbAfter, hpi, hval, hnn]
      · simp [vote_post, vote_post_txn, dbAfter, hpi, hval, hnn]
    · simp [vote_post, dbAfter, hpi, hval]

theorem create_comment_preserves_posts (db : DB) (post_id content user_id comment_id : String)
    (now : Nat) :
    (dbAfter (create_comment db post_id content user_id comment_id now) db).posts = db.posts := by
  by_cases hemp : content = "" ∨ pyStrip content = ""
  · simp [create_comment, dbAfter, hemp]
  · by_cases hnn : (db.posts.find? (fun p => p.id == post_id)).isNone = true
    · simp [create_comment, create_comment_txn, dbAfter, hemp, hnn]
    · cases hu : db.users.find? (fun u => u.id == user_id) with
      | none => simp [create_comment, create_comment_txn, dbAfter, hemp, hnn, hu]
      | some u => simp [create_comment, create_comment_txn, dbAfter, hemp, hnn, hu]

theorem create_post_posts (db : DB) (payload : PostCreate) (uid pid : String) (now : Nat) :
    (dbAfter (create_post db payload uid pid now) db).posts =
      db.posts ++ [⟨pid, uid, payload.description, none, payload.image_url,
        payload.lat, payload.lng, "PENDING", now⟩] := rfl

theorem create_post_file_posts (db : DB) (d : String) (la ln : Rat) (ct fn : String)
    (uid pid : String) (now : Nat) :
    (dbAfter (create_post_file db d la ln ct fn uid pid now) db).posts = db.posts
    ∨ ∃ url, (dbAfter (create_post_file db d la ln ct fn uid pid now) db).posts =
        db.posts ++ [⟨pid, uid, d, none, url, la, ln, "PENDING", now⟩] := by
  by_cases himg : String.mk (takeUntil '/' ct.data) ≠ "image"
  · left
    simp [create_post_file, dbAfter, himg]
  · right
    refine ⟨s3_endpoint_url ++ "/" ++ BUCKET ++ "/" ++ (pid ++ "." ++
      (match lastSplitSuffix '.' fn.data with
        | some suf => String.mk suf
        | none => "jpg")), ?_⟩
    simp [create_post_file, dbAfter, himg]

/-! ### Claims -/

/-- C1: the spec says a vote or comment-create against a nonexistent
post fails with NotFound (404).  No row is inserted (the transaction
ends in an error, committing nothing), but the response status is 500,
not 404: the handlers raise `HTTPException(404, "Post not found")`
inside a `try:` whose `except Exception` clause catches it
(`HTTPException` subclasses `Exception`) and re-raises it as
`HTTPException(500, "DB error: 404: Post not found")`. -/
theorem C1_missing_post_yields_500 :
    vote_post dbNoPosts "p-missing" [("vote", JsonVal.int 1)] "u1" 0 =
      .error (.http 500 "DB error: 404: Post not found" false)
    ∧ create_comment dbNoPosts "p-missing" "hello" "u1" "c1" 0 =
      .error (.http 500 "DB error: 404: Post not found" false) :=
  ⟨rfl, rfl⟩

/-- C2: the spec says the workflow-trigger call scheduled by the
server-proxy post-creation path carries an explicit timeout of 10
seconds.  Evaluating `create_post_file` shows the scheduled call binds
the object URL string — not the integer 10 — to `trigger_kestra`'s
`timeout` parameter: `add_task(trigger_kestra, post_id, object_url)`
passes `object_url` as the second positional argument and
`trigger_kestra`'s second parameter is `timeout`, there being no
image-URL parameter. -/
theorem C2_trigger_timeout_is_object_url :
    create_post_file dbNoPosts "pothole" 0 0 "image/jpeg" "road.jpg" "u1" "p1" 5 =
      .ok ({ dbNoPosts with posts := [⟨"p1", "u1", "pothole", none,
          "http://localhost:9000/citysense/p1.jpg", 0, 0, "PENDING", 5⟩] },
        ⟨"p1", "http://localhost:9000/citysense/p1.jpg", "PENDING"⟩,
        [{ post_id := "p1", timeout := JsonVal.str "http://localhost:9000/citysense/p1.jpg" }])
    ∧ JsonVal.str "http://localhost:9000/citysense/p1.jpg" ≠ trigger_kestra_default_timeout :=
  ⟨rfl, by decide⟩

/-- C3 counterexample: a vote value of 1.5 — not one of +1, −1, 0 — is
not rejected with BadRequest: `int(1.5)` truncates to 1 and the request
inserts a vote row; and the non-numeric value `"abc"` makes `int(...)`
raise an uncaught `ValueError` (a 500), not a BadRequest. -/
theorem C3_noninteger_vote_accepted :
    pyInt (JsonVal.float (mkRat 3 2)) = .ok 1
    ∧ vote_post dbOnePost "p1" [("vote", JsonVal.float (mkRat 3 2))] "u1" 7 =
      .ok ({ dbOnePost with votes := [⟨"p1", "u1", 1, 7⟩] }, ⟨1, 0, 1⟩)
    ∧ vote_post dbOnePost "p1" [("vote", JsonVal.str "abc")] "u1" 7 =
      .error (.uncaught "ValueError") :=
  ⟨rfl, rfl, rfl⟩

/-- C3 amended: the vote value is first coerced with Python `int()`.
When the coercion yields an integer outside {+1, −1, 0}, the request
fails with BadRequest (400) before any database access; when the
coercion itself fails (non-numeric value), the exception propagates
uncaught and the response is a 500, not a 400. -/
theorem C3_vote_value_validation (db : DB) (post_id user_id : String)
    (payload : List (String × JsonVal)) (now : Nat) :
    (∀ v : Int, pyInt ((payload.lookup "vote").getD (.int 0)) = .ok v →
      ¬(v = 1 ∨ v = -1 ∨ v = 0) →
      vote_post db post_id payload user_id now = .error (.http 400 "Invalid vote value" false))
    ∧ (∀ exc, pyInt ((payload.lookup "vote").getD (.int 0)) = .error exc →
      vote_post db post_id payload user_id now = .error (.uncaught exc)) := by
  constructor
  · intro v hv hbad
    simp [vote_post, hv, hbad]
  · intro exc hexc
    simp [vote_post, hexc]

/-- C3 amended, witness: vote value 2 is rejected with 400; vote value
`None` raises an uncaught `TypeError`. -/
theorem C3_vote_value_validation_witness :
    vote_post dbOnePost "p1" [("vote", JsonVal.int 2)] "u1" 7 =
      .error (.http 400 "Invalid vote value" false)
    ∧ vote_post dbOnePost "p1" [("vote", JsonVal.null)] "u1" 7 =
      .error (.uncaught "TypeError") :=
  ⟨(C3_vote_value_validation dbOnePost "p1" "u1" [("vote", JsonVal.int 2)] 7).1 2 rfl (by decide),
   (C3_vote_value_validation dbOnePost "p1" "u1" [("vote", JsonVal.null)] 7).2 "TypeError" rfl⟩

/-- C5: login with an unknown username and login with a known username
but failing password verification produce the same error response: the
same 400 status and the same reason text
`"Incorrect username or password"`. -/
theorem C5_login_indistinguishable (db : DB) (verify : String → String → Bool)
    (needsUpdate : String → Bool) (rehash : String → String) (expireMinutes now : Int)
    (u1 p1 u2 p2 : String) (row : UserRow)
    (h1 : get_user_by_username db u1 = none)
    (h2 : get_user_by_username db u2 = some row)
    (h3 : verify p2 row.hashed_password = false) :
    login db verify needsUpdate rehash expireMinutes now u1 p1 =
      login db verify needsUpdate rehash expireMinutes now u2 p2
    ∧ login db verify needsUpdate rehash expireMinutes now u1 p1 =
      .error (.http 400 "Incorrect username or password" false) := by
  unfold login
  rw [h1, h2]
  simp [h3]

/-- C5 witness: in a store holding only the user `bob` (stored hash
`"pw"`, verification modelled as string equality), logging in as the
unknown `nobody` and logging in as `bob` with a wrong password give
identical responses. -/
theorem C5_login_indistinguishable_witness :
    login dbNoPosts (fun p h => p == h) (fun _ => false) id 1440 0 "nobody" "x" =
      login dbNoPosts (fun p h => p == h) (fun _ => false) id 1440 0 "alice" "wrong" :=
  (C5_login_indistinguishable dbNoPosts (fun p h => p == h) (fun _ => false) id 1440 0
    "nobody" "x" "alice" "wrong"
    ⟨"u1", "alice", "a@example.com", "h", none, none, none, none, none, none, none⟩
    rfl rfl rfl).1

/-- C7: a token issued without an explicit lifetime carries the user id
as its `sub` claim, `iat` equal to the issue time, and `exp` equal to
`iat` plus the configured lifetime in minutes; the lifetime defaults to
1440 minutes when the environment variable is unset. -/
theorem C7_issued_token_claims (env : Option Int) (user_id : String) (now : Int) :
    ACCESS_TOKEN_EXPIRE_MINUTES none = 1440
    ∧ (login_token_claims (ACCESS_TOKEN_EXPIRE_MINUTES env) user_id now).data =
        [("sub", user_id)]
    ∧ (login_token_claims (ACCESS_TOKEN_EXPIRE_MINUTES env) user_id now).iat = now
    ∧ (login_token_claims (ACCESS_TOKEN_EXPIRE_MINUTES env) user_id now).exp =
        now + ACCESS_TOKEN_EXPIRE_MINUTES env * 60 :=
  ⟨rfl, rfl, rfl, rfl⟩

/-- C10: `list_comments` applies no bounds validation — its offset is
`(page − 1) × limit` for every integer page and limit, negative whenever
`page ≤ 0` and `limit > 0`, and is bound directly into the SQL query —
whereas `list_posts` accepts its parameters exactly when `page ≥ 1` and
`1 ≤ limit ≤ 50`. -/
theorem C10_list_comments_unvalidated (post_id : String) (page limit : Int) :
    (list_comments_query post_id page limit).offset = (page - 1) * limit
    ∧ (page ≤ 0 → 0 < limit → (list_comments_query post_id page limit).offset < 0)
    ∧ ((∃ off, list_posts_params page limit = .ok off) ↔
        (1 ≤ page ∧ 1 ≤ limit ∧ limit ≤ 50)) := by
  refine ⟨rfl, ?_, ?_⟩
  · intro hp hl
    have h1 : page - 1 < 0 := by omega
    exact mul_neg_of_neg_of_pos h1 hl
  · unfold list_posts_params
    constructor
    · intro ⟨off, hoff⟩
      by_cases h1 : page < 1
      · simp [h1] at hoff
      · by_cases h2 : limit < 1
        · simp [h1, h2] at hoff
        · by_cases h3 : limit > 50
          · simp [h1, h2, h3] at hoff
          · omega
    · intro ⟨h1, h2, h3⟩
      exact ⟨(page - 1) * limit, by simp [show ¬(page < 1) by omega, show ¬(limit < 1) by omega,
        show ¬(limit > 50) by omega]⟩

/-- C10 witness: at page 0, limit 50, `list_comments` computes the
negative offset −50 while `list_posts` rejects the parameters. -/
theorem C10_list_comments_unvalidated_witness :
    (list_comments_query "p1" 0 50).offset < 0 ∧ list_posts_params 0 50 = .error () :=
  ⟨(C10_list_comments_unvalidated "p1" 0 50).2.1 (by decide) (by decide), rfl⟩

theorem C4_vote_upsert (db : DB) (post_id user_id : String) (v : Int) (now : Nat)
    (hpost : (db.posts.find? (fun p => p.id == post_id)).isSome = true)
    (hinv : ∀ p u, (votesFor db p u).length ≤ 1)
    (hv : v = 1 ∨ v = -1 ∨ v = 0) :
    ∃ db' res, vote_post db post_id [("vote", JsonVal.int v)] user_id now = .ok (db', res)
      ∧ (∀ p u, (votesFor db' p u).length ≤ 1)
      ∧ res.user_vote = v
      ∧ (v = 0 → votesFor db' post_id user_id = [])
      ∧ (v ≠ 0 → votesFor db' post_id user_id = [⟨post_id, user_id, v, now⟩])
      ∧ (∀ p u, ¬(p = post_id ∧ u = user_id) → votesFor db' p u = votesFor db p u) := by
  have hnn : (db.posts.find? (fun p => p.id == post_id)).isNone = false := by
    cases hf : db.posts.find? (fun p => p.id == post_id) <;> simp_all
  have hpair := votesAfter_filter_pair db.votes post_id user_id v now (hinv post_id user_id)
  refine ⟨_, _, vote_post_eq db post_id user_id v now hv hnn, ?_, ?_, ?_, ?_, ?_⟩
  · intro p u
    exact votesAfter_inv db.votes post_id user_id v now hinv p u
  · by_cases hv0 : v = 0
    · subst hv0
      have hfind : (votesAfter db.votes post_id user_id 0 now).find?
          (pairMatch post_id user_id) = none :=
        find?_eq_none_of_filter_eq_nil (by rw [hpair, if_pos rfl])
      simp [voteCounts, hfind]
    · have hfind : (votesAfter db.votes post_id user_id v now).find?
          (pairMatch post_id user_id) = some ⟨post_id, user_id, v, now⟩ :=
        find?_of_filter_singleton (by rw [hpair, if_neg hv0])
      simp [voteCounts, hfind]
  · intro hv0
    show (votesAfter db.votes post_id user_id v now).filter (pairMatch post_id user_id) = []
    rw [hpair, if_pos hv0]
  · intro hv0
    show (votesAfter db.votes post_id user_id v now).filter (pairMatch post_id user_id) = _
    rw [hpair, if_neg hv0]
  · intro p u hne
    show (votesAfter db.votes post_id user_id v now).filter (pairMatch p u) =
      db.votes.filter (pairMatch p u)
    exact votesAfter_filter_other db.votes post_id user_id p u v now hne

theorem C4_vote_upsert_witness :
    ∃ db' res, vote_post dbOnePost "p1" [("vote", JsonVal.int 1)] "u1" 7 = .ok (db', res)
      ∧ (∀ p u, (votesFor db' p u).length ≤ 1)
      ∧ res.user_vote = 1
      ∧ ((1:Int) = 0 → votesFor db' "p1" "u1" = [])
      ∧ ((1:Int) ≠ 0 → votesFor db' "p1" "u1" = [⟨"p1", "u1", 1, 7⟩])
      ∧ (∀ p u, ¬(p = "p1" ∧ u = "u1") → votesFor db' p u = votesFor dbOnePost p u) :=
  C4_vote_upsert dbOnePost "p1" "u1" 1 7 rfl
    (fun p u => by simp [votesFor, dbOnePost]) (by decide)

theorem C9_missing_vote_key_deletes (db : DB) (post_id user_id : String)
    (payload : List (String × JsonVal)) (now : Nat)
    (hmiss : payload.lookup "vote" = none)
    (hpost : (db.posts.find? (fun p => p.id == post_id)).isSome = true) :
    ∃ res, vote_post db post_id payload user_id now =
        .ok ({ db with votes := db.votes.filter (fun r => !pairMatch post_id user_id r) }, res)
      ∧ res.user_vote = 0 := by
  have hnn : (db.posts.find? (fun p => p.id == post_id)).isNone = false := by
    cases hf : db.posts.find? (fun p => p.id == post_id) <;> simp_all
  have h1 : vote_post db post_id payload user_id now =
      match vote_post_txn db post_id user_id 0 now with
      | .ok r => .ok r
      | .error e => .error (.http 500 ("DB error: " ++ pyStr e) false) := by
    unfold vote_post
    rw [hmiss]
    rfl
  refine ⟨voteCounts (votesAfter db.votes post_id user_id 0 now) post_id user_id, ?_, ?_⟩
  · rw [h1, vote_post_txn_eq db post_id user_id 0 now hnn]
    rfl
  · have hfind : (votesAfter db.votes post_id user_id 0 now).find?
        (pairMatch post_id user_id) = none :=
      find?_eq_none_of_filter_eq_nil (filter_filter_not _ _)
    simp [voteCounts, hfind]

theorem C9_missing_vote_key_deletes_witness :
    ∃ res, vote_post dbOnePost "p1" [] "u1" 7 =
        .ok ({ dbOnePost with
          votes := dbOnePost.votes.filter (fun r => !pairMatch "p1" "u1" r) }, res)
      ∧ res.user_vote = 0 :=
  C9_missing_vote_key_deletes dbOnePost "p1" "u1" [] 7 rfl rfl

theorem C6_resolve_current_user (db : DB) (t : JwtToken) (now : Int) :
    ((∃ e, get_current_user db t now = .error e) ↔
      (t.validSignature = false ∨ t.wellFormed = false ∨ tokenExpired t now = true ∨
        t.sub = none ∨ ∃ uid, t.sub = some uid ∧ get_user_by_id db uid = none))
    ∧ (∀ e, get_current_user db t now = .error e → e = credentials_exception)
    ∧ (∀ uid row, t.wellFormed = true → t.validSignature = true → tokenExpired t now = false →
        t.sub = some uid → get_user_by_id db uid = some row →
        get_current_user db t now =
          .ok ⟨row.id, row.username, row.email, row.reputation_score.getD (mkRat 1 2)⟩) := by
  refine ⟨?_, ?_, ?_⟩
  · cases hwf : t.wellFormed
    · simp [get_current_user, jwtDecode, hwf]
    · cases hvs : t.validSignature
      · simp [get_current_user, jwtDecode, hwf, hvs]
      · cases hexp : tokenExpired t now
        · cases hsub : t.sub with
          | none => simp [get_current_user, jwtDecode, hwf, hvs, hexp, hsub]
          | some uid =>
            cases hlk : get_user_by_id db uid
            · simp [get_current_user, jwtDecode, hwf, hvs, hexp, hsub, hlk]
            · simp [get_current_user, jwtDecode, hwf, hvs, hexp, hsub, hlk]
        · simp [get_current_user, jwtDecode, hwf, hvs, hexp]
  · intro e he
    unfold get_current_user at he
    split at he
    · injection he with h
      exact h.symm
    · injection he with h
      exact h.symm
    · split at he
      · injection he with h
        exact h.symm
      · exact absurd he (by simp)
  · intro uid row hwf hvs hexp hsub hlk
    simp [get_current_user, jwtDecode, hwf, hvs, hexp, hsub, hlk]

theorem C6_resolve_current_user_witness :
    get_current_user dbNoPosts ⟨true, true, some 100, some "u1"⟩ 0 =
      .ok ⟨"u1", "alice", "a@example.com", mkRat 1 2⟩ :=
  (C6_resolve_current_user dbNoPosts ⟨true, true, some 100, some "u1"⟩ 0).2.2 "u1"
    ⟨"u1", "alice", "a@example.com", "h", none, none, none, none, none, none, none⟩
    rfl rfl rfl rfl rfl

theorem C8_status_always_pending (db : DB) (op : ApiOp) :
    (∀ p ∈ (applyOp db op).posts, p ∈ db.posts ∨ (p.status = "PENDING" ∧ p.category = none))
    ∧ (∀ (payload : PostCreate) (user_id post_id : String) (now : Nat) (db' : DB)
        (resp : PostResponse), create_post db payload user_id post_id now = .ok (db', resp) →
        db'.posts = db.posts ++ [⟨post_id, user_id, payload.description, none,
          payload.image_url, payload.lat, payload.lng, "PENDING", now⟩])
    ∧ (∀ (d : String) (la ln : Rat) (ct fn user_id post_id : String) (now : Nat) (db' : DB)
        (resp : PostResponse) (tasks : List KestraCall),
        create_post_file db d la ln ct fn user_id post_id now = .ok (db', resp, tasks) →
        ∃ url, db'.posts =
          db.posts ++ [⟨post_id, user_id, d, none, url, la, ln, "PENDING", now⟩]) := by
  refine ⟨?_, ?_, ?_⟩
  · intro p hp
    cases op with
    | registerUser input hash new_id =>
      simp only [applyOp] at hp
      rw [register_preserves_posts] at hp
      exact Or.inl hp
    | loginUser verify nu rh m now u pw =>
      simp only [applyOp] at hp
      rw [login_preserves_posts] at hp
      exact Or.inl hp
    | postFile d la ln ct fn uid pid now =>
      simp only [applyOp] at hp
      rcases create_post_file_posts db d la ln ct fn uid pid now with hsame | ⟨url, happ⟩
      · rw [hsame] at hp
        exact Or.inl hp
      · rw [happ] at hp
        rcases List.mem_append.mp hp with hin | hnew
        · exact Or.inl hin
        · right
          rw [List.mem_singleton.mp hnew]
          exact ⟨rfl, rfl⟩
    | uploadUrl fn ct => exact Or.inl hp
    | registerPost payload uid pid now =>
      simp only [applyOp] at hp
      rw [create_post_posts] at hp
      rcases List.mem_append.mp hp with hin | hnew
      · exact Or.inl hin
      · right
        rw [List.mem_singleton.mp hnew]
        exact ⟨rfl, rfl⟩
    | listPostsOp page limit uid => exact Or.inl hp
    | votePostOp pid payload uid now =>
      simp only [applyOp] at hp
      rw [vote_post_preserves_posts] at hp
      exact Or.inl hp
    | listCommentsOp pid page limit => exact Or.inl hp
    | createCommentOp pid content uid cid now =>
      simp only [applyOp] at hp
      rw [create_comment_preserves_posts] at hp
      exact Or.inl hp
  · intro payload user_id post_id now db' resp h
    simp only [create_post, Except.ok.injEq, Prod.mk.injEq] at h
    rw [← h.1]
  · intro d la ln ct fn user_id post_id now db' resp tasks h
    by_cases himg : String.mk (takeUntil '/' ct.data) ≠ "image"
    · simp only [create_post_file, if_pos himg] at h
      exact absurd h (by simp)
    · refine ⟨s3_endpoint_url ++ "/" ++ BUCKET ++ "/" ++ (post_id ++ "." ++
        (match lastSplitSuffix '.' fn.data with
          | some suf => String.mk suf
          | none => "jpg")), ?_⟩
      simp only [create_post_file, if_neg himg, Except.ok.injEq, Prod.mk.injEq] at h
      rw [← h.1]

theorem C8_status_always_pending_witness :
    ∃ db' resp, create_post dbNoPosts ⟨"pothole", 0, 0, "http://x/y.jpg"⟩ "u1" "p2" 9 =
        .ok (db', resp)
      ∧ db'.posts = dbNoPosts.posts ++ [⟨"p2", "u1", "pothole", none, "http://x/y.jpg",
          0, 0, "PENDING", 9⟩]
      ∧ (∀ p ∈ (applyOp dbNoPosts (.registerPost ⟨"pothole", 0, 0, "http://x/y.jpg"⟩
          "u1" "p2" 9)).posts, p ∈ dbNoPosts.posts ∨ (p.status = "PENDING" ∧ p.category = none)) :=
  ⟨_, _, rfl,
    (C8_status_always_pending dbNoPosts (.registerPost ⟨"pothole", 0, 0, "http://x/y.jpg"⟩
      "u1" "p2" 9)).2.1 ⟨"pothole", 0, 0, "http://x/y.jpg"⟩ "u1" "p2" 9 _ _ rfl,
    (C8_status_always_pending dbNoPosts (.registerPost ⟨"pothole", 0, 0, "http://x/y.jpg"⟩
      "u1" "p2" 9)).1⟩


end Pholkhol
